import Mathlib

/-!
# Verification of the alphabet-image-generator response pipeline

Shallow embedding of `src/components/GeminiImageGenerator.tsx`:

* the data model of the external API response (`GenResponse` and friends),
* the controller `generateImage` (the spec's `submit`), modelled as a pure
  state transition parameterised by the API key and by the result of the one
  external call (`CallResult`),
* the export action `saveImage` (the spec's `exportImage`), with the
  `atob` base64 decoder and the try/catch modelled explicitly via `Except`,
* a base64 codec (model of the browser's `atob`/payload encoding) with a
  proved decode-of-encode round trip.

JavaScript truthiness of the strings involved (`!word`, `!style`, `!API_KEY`)
is emptiness of the string; truthiness of optional object fields
(`part.inlineData`) is `Option.isSome`.
-/

namespace GeminiGen

/-- Inline binary payload of a response part: `inlineData: {mimeType, data}`
with `data` base64 text. -/
structure InlineData where
  mimeType : String
  data : String
deriving DecidableEq

/-- One content part of a candidate; may carry text and/or inline data. -/
structure Part where
  text : Option String := none
  inlineData : Option InlineData := none
deriving DecidableEq

/-- `candidates[0].safetyAttributes` of the API response. -/
structure SafetyAttributes where
  blockedCategories : Option (List String) := none
deriving DecidableEq

/-- `candidates[i].content` of the API response. -/
structure Content where
  parts : Option (List Part) := none
deriving DecidableEq

/-- One candidate of the API response. -/
structure Candidate where
  safetyAttributes : Option SafetyAttributes := none
  content : Option Content := none
deriving DecidableEq

/-- The API response shape consumed by the controller. -/
structure GenResponse where
  candidates : Option (List Candidate) := none
deriving DecidableEq

/-- The React component's state: `style`, `word`, `image`, `loading`,
`error`, `debugInfo` (lines 9-14 of the source). -/
structure ComponentState where
  style : String := ""
  word : String := ""
  image : Option Part := none
  loading : Bool := false
  error : Option String := none
  debugInfo : List String := []
deriving DecidableEq

/-- Result of the one external call: either a response object or a thrown
exception whose `message` field may be absent. -/
inductive CallResult where
  | ok (r : GenResponse)
  | err (message : Option String)
deriving DecidableEq

/-- The spec's `GenerationOutcome` classification of a resolved response
(the terminal cases reachable from the response-interpretation branch). -/
inductive GenerationOutcome where
  | Blocked
  | Succeeded (payload : Part)
  | Failed (message : String)
deriving DecidableEq

/-! ## Literal strings of the source -/

/-- Line 18: validation message for missing word/style. -/
def missingFieldsMsg : String := "Please enter both a word and style"

/-- Line 23: validation message for the missing API key. -/
def missingKeyMsg : String :=
  "API key is missing. Please add your Gemini API key to the .env file."

/-- Line 65: error message of the safety-blocked branch. -/
def blockedErrorMsg : String :=
  "The image generation was blocked due to safety concerns. Please try a different prompt."

/-- Line 79: error message when the response carries no image data. -/
def noImageErrorMsg : String :=
  "Failed to generate an image. The API did not return image data."

/-- Line 40: the prompt template. The source interpolates `word` inside
double quotes and `style` twice. -/
def imagePrompt (word style : String) : String :=
  "Create a high-quality, clear image of a \"" ++ word ++ "\" in the style of " ++
    style ++
    ". The object should be the central focus of the image, and visually styled according to the description: " ++
    style ++ ". Make it visually appealing and artistic."

/-! ## Response inspection (lines 63 and 71) -/

/-- Line 63:
`response.candidates?.[0]?.safetyAttributes?.blockedCategories?.includes('IMAGE_SAFETY')`.
Optional chaining on an absent field yields a falsy value. -/
def isSafetyBlocked (r : GenResponse) : Bool :=
  match r.candidates with
  | some (c :: _) =>
    match c.safetyAttributes with
    | some sa =>
      match sa.blockedCategories with
      | some cats => cats.contains "IMAGE_SAFETY"
      | none => false
    | none => false
  | _ => false

/-- Line 71:
`response.candidates?.[0]?.content?.parts?.find(part => part.inlineData)`. -/
def findImagePart (r : GenResponse) : Option Part :=
  match r.candidates with
  | some (c :: _) =>
    match c.content with
    | some ct =>
      match ct.parts with
      | some ps => ps.find? (fun p => p.inlineData.isSome)
      | none => none
    | none => none
  | _ => none

/-! ## Serialization (model of `JSON.stringify(response, null, 2)`, line 82) -/

/-- JSON string literal. -/
def jsonStr (s : String) : String := "\"" ++ s ++ "\""

/-- Serialize an optional field (`null` for an absent one). -/
def serializeOpt {α : Type} (f : α → String) : Option α → String
  | none => "null"
  | some x => f x

/-- Serialize a JSON array. -/
def serializeList {α : Type} (f : α → String) (xs : List α) : String :=
  "[" ++ String.intercalate ", " (xs.map f) ++ "]"

/-- Serialize an inline-data object. -/
def serializeInlineData (d : InlineData) : String :=
  "\x7b \"mimeType\": " ++ jsonStr d.mimeType ++ ", \"data\": " ++ jsonStr d.data ++ " \x7d"

/-- Serialize a content part. -/
def serializePart (p : Part) : String :=
  "\x7b \"text\": " ++ serializeOpt jsonStr p.text ++
    ", \"inlineData\": " ++ serializeOpt serializeInlineData p.inlineData ++ " \x7d"

/-- Serialize the safety attributes. -/
def serializeSafety (sa : SafetyAttributes) : String :=
  "\x7b \"blockedCategories\": " ++ serializeOpt (serializeList jsonStr) sa.blockedCategories ++ " \x7d"

/-- Serialize a candidate. -/
def serializeCandidate (c : Candidate) : String :=
  "\x7b \"safetyAttributes\": " ++ serializeOpt serializeSafety c.safetyAttributes ++
    ", \"content\": " ++
    serializeOpt (fun ct => "\x7b \"parts\": " ++
      serializeOpt (serializeList serializePart) ct.parts ++ " \x7d") c.content ++ " \x7d"

/-- Serialize the whole response (model of `JSON.stringify(response, null, 2)`). -/
def serializeResponse (r : GenResponse) : String :=
  "\x7b \"candidates\": " ++ serializeOpt (serializeList serializeCandidate) r.candidates ++ " \x7d"

/-! ## The controller `generateImage` (lines 16-93) -/

/-- Lines 27-29: `setLoading(true); setError(null); setDebugInfo([])` —
the state after the per-request reset, before the call is issued. -/
def resetForRequest (s : ComponentState) : ComponentState :=
  { s with loading := true, error := none, debugInfo := [] }

/-- The MIME type logged at line 76 (`imagePart.inlineData.mimeType`; the part
returned by `find` always has `inlineData`). -/
def partMimeType (p : Part) : String :=
  match p.inlineData with
  | some d => d.mimeType
  | none => "undefined"

/-- Lines 59-85: interpretation of a resolved response, starting from the
reset state `s1`. `logs` holds the three entries pushed before the
classification (lines 42, 56, 60). -/
def processResponse (s1 : ComponentState) (r : GenResponse) : ComponentState :=
  let logs : List String :=
    ["Sending prompt: " ++ imagePrompt s1.word s1.style,
     "Received response from Gemini API",
     "Processing response"]
  if isSafetyBlocked r then
    { s1 with error := some blockedErrorMsg,
              debugInfo := logs ++ ["Image was blocked due to safety concerns"] }
  else
    match findImagePart r with
    | some p =>
      { s1 with image := some p,
                debugInfo := logs ++ ["Successfully extracted image data",
                                      "Image MIME type: " ++ partMimeType p] }
    | none =>
      { s1 with error := some noImageErrorMsg,
                debugInfo := logs ++ ["No image data found in the response",
                                      "API Response: " ++ serializeResponse r] }

/-- Lines 31-92: the try/catch/finally around the call. `s0` is the state
snapshot captured by the closure (the catch block's `setDebugInfo([...debugInfo, ...])`
reads the stale `debugInfo` from `s0`, not the trace reset for this request);
`s1` is the state after the reset. `finally` clears `loading` on every path. -/
def dispatchCall (s0 s1 : ComponentState) (call : CallResult) : ComponentState :=
  let s2 :=
    match call with
    | .ok r => processResponse s1 r
    | .err m =>
      { s1 with error := some ("Failed to generate image: " ++ m.getD "Unknown error"),
                debugInfo := s0.debugInfo ++ ["Error: " ++ m.getD "Unknown error"] }
  { s2 with loading := false }

/-- Lines 16-93: the full `generateImage` handler (the spec's `submit`),
as a state transition given the configured API key and the call's result. -/
def generateImage (s : ComponentState) (apiKey : String) (call : CallResult) : ComponentState :=
  if s.word = "" ∨ s.style = "" then
    { s with error := some missingFieldsMsg }
  else if apiKey = "" then
    { s with error := some missingKeyMsg }
  else
    dispatchCall s (resetForRequest s) call

/-- The spec's `GenerationOutcome` view of the response-interpretation branch
(lines 63-83): safety check first, then the inline-data search, else failure. -/
def classifyResponse (r : GenResponse) : GenerationOutcome :=
  if isSafetyBlocked r then
    GenerationOutcome.Blocked
  else
    match findImagePart r with
    | some p => GenerationOutcome.Succeeded p
    | none => GenerationOutcome.Failed noImageErrorMsg

/-! ## Base64 codec

Model of the standard base64 alphabet used by the browser's `atob`
(line 104) and by the API's inline payload encoding. Bytes are `Nat < 256`. -/

/-- The 64-character base64 alphabet. -/
def base64Alphabet : List Char :=
  ['A', 'B', 'C', 'D', 'E', 'F', 'G', 'H', 'I', 'J', 'K', 'L', 'M',
   'N', 'O', 'P', 'Q', 'R', 'S', 'T', 'U', 'V', 'W', 'X', 'Y', 'Z',
   'a', 'b', 'c', 'd', 'e', 'f', 'g', 'h', 'i', 'j', 'k', 'l', 'm',
   'n', 'o', 'p', 'q', 'r', 's', 't', 'u', 'v', 'w', 'x', 'y', 'z',
   '0', '1', '2', '3', '4', '5', '6', '7', '8', '9', '+', '/']

/-- The character encoding a six-bit value. -/
def sixtetToChar (n : Nat) : Char := base64Alphabet.getD n 'A'

/-- The six-bit value of an alphabet character (`none` off the alphabet;
in particular `'='` and whitespace are not six-bit digits). -/
def charToSixtet (c : Char) : Option Nat :=
  base64Alphabet.findIdx? (fun a => a = c)

/-- Base64-encode a byte list, three bytes to four characters, padding the
final group with `'='`. -/
def encodeChunks : List Nat → List Char
  | [] => []
  | [b1] =>
    [sixtetToChar (b1 / 4), sixtetToChar (b1 % 4 * 16), '=', '=']
  | [b1, b2] =>
    [sixtetToChar (b1 / 4), sixtetToChar (b1 % 4 * 16 + b2 / 16),
     sixtetToChar (b2 % 16 * 4), '=']
  | b1 :: b2 :: b3 :: rest =>
    sixtetToChar (b1 / 4) :: sixtetToChar (b1 % 4 * 16 + b2 / 16) ::
      sixtetToChar (b2 % 16 * 4 + b3 / 64) :: sixtetToChar (b3 % 64) ::
      encodeChunks rest

/-- Base64-decode a character list, four characters to three bytes; fails
(`none`) off the alphabet, on a length not a multiple of four, or on
padding anywhere but the final group — the inputs `atob` throws on. -/
def decodeChunks : List Char → Option (List Nat)
  | [] => some []
  | c1 :: c2 :: c3 :: c4 :: rest =>
    match charToSixtet c1, charToSixtet c2 with
    | some v1, some v2 =>
      if c3 = '=' then
        if c4 = '=' ∧ rest = [] then some [v1 * 4 + v2 / 16] else none
      else
        match charToSixtet c3 with
        | some v3 =>
          if c4 = '=' then
            if rest = [] then some [v1 * 4 + v2 / 16, v2 % 16 * 16 + v3 / 4] else none
          else
            match charToSixtet c4 with
            | some v4 =>
              match decodeChunks rest with
              | some bs =>
                some ((v1 * 4 + v2 / 16) :: (v2 % 16 * 16 + v3 / 4) ::
                      (v3 % 4 * 64 + v4) :: bs)
              | none => none
            | none => none
        | none => none
    | _, _ => none
  | _ => none

/-- Base64 encoding of a byte list as a string. -/
def base64Encode (bs : List Nat) : String := String.mk (encodeChunks bs)

/-- Base64 decoding of a string (the pure content of `atob`). -/
def base64Decode (s : String) : Option (List Nat) := decodeChunks s.data

/-! ## The export action `saveImage` (lines 95-124) -/

/-- One triggered save-as download (`FileSaver.saveAs(blob, name)`, line 116):
the file name, the blob's declared MIME type, and the blob's bytes. -/
structure SaveRequest where
  fileName : String
  mimeType : String
  bytes : List Nat
deriving DecidableEq

/-- The `DOMException` message `atob` raises on malformed input. -/
def atobErrorMsg : String := "The string to be decoded is not correctly encoded."

/-- Line 104: `atob(data)` — base64 decoding that throws on malformed input,
modelled in `Except`. -/
def atob (data : String) : Except String (List Nat) :=
  match base64Decode data with
  | some bs => Except.ok bs
  | none => Except.error atobErrorMsg

/-- JavaScript's `String.prototype.split` on a one-character separator:
splits into the (possibly empty) segments between separators. -/
def splitOnChar (sep : Char) : List Char → List (List Char)
  | [] => [[]]
  | c :: cs =>
    if c = sep then [] :: splitOnChar sep cs
    else
      match splitOnChar sep cs with
      | r :: rs => (c :: r) :: rs
      | [] => [[c]]

/-- Line 113: `mimeType.split('/')[1] || 'png'` — the file extension taken
from the subtype half of the MIME type, falling back to `"png"` when the
subtype is absent (`undefined`) or empty. -/
def mimeExtension (mimeType : String) : String :=
  match (splitOnChar '/' mimeType.data).get? 1 with
  | some sub => if sub = [] then "png" else String.mk sub
  | none => "png"

/-- Lines 98-119: the body of `saveImage`'s `try` block, for a present
`image`; raises (in `Except`) exactly where `atob` would. -/
def saveImageTry (s : ComponentState) (img : Part) :
    Except String (ComponentState × List SaveRequest) := do
  match img.inlineData with
  | some d => do
    let bytes ← atob d.data
    let extension := mimeExtension d.mimeType
    pure (s, [⟨s.word ++ "." ++ extension, d.mimeType, bytes⟩])
  | none =>
    pure ({ s with error := some "No valid image data to save" }, [])

/-- Lines 95-124: the full `saveImage` handler (the spec's `exportImage`):
the `!image || !word` guard, then the `try` body with its `catch` turning a
decode exception into an error message. Returns the new state and the list
of triggered save requests. -/
def saveImage (s : ComponentState) : ComponentState × List SaveRequest :=
  match s.image with
  | none => (s, [])
  | some img =>
    if s.word = "" then (s, [])
    else
      match saveImageTry s img with
      | Except.ok res => res
      | Except.error m =>
        ({ s with error := some ("Failed to save image: " ++ (if m = "" then "Unknown error" else m)) }, [])

/-! ## Spec-side definitions for refinement comparison -/

/-- The prompt template exactly as the spec writes it (subject wrapped in
single quotes), for comparison with the source's `imagePrompt`. -/
def specPromptAsWritten (subject style : String) : String :=
  "Create a high-quality, clear image of a '" ++ subject ++ "' in the style of " ++
    style ++
    ". The object should be the central focus of the image, and visually styled according to the description: " ++
    style ++ ". Make it visually appealing and artistic."

/-- The spec's template amended to what the source interpolates: the subject
wrapped in double quotes (everything else unchanged). -/
def specPromptAmended (subject style : String) : String :=
  "Create a high-quality, clear image of a \"" ++ subject ++ "\" in the style of " ++
    style ++
    ". The object should be the central focus of the image, and visually styled according to the description: " ++
    style ++ ". Make it visually appealing and artistic."

/-- `leadsWith n h`: the list `n` is an initial segment of `h`. -/
def leadsWith : List Char → List Char → Bool
  | [], _ => true
  | _ :: _, [] => false
  | a :: as, b :: bs => a = b && leadsWith as bs

/-- Number of positions of `hay` at which `needle` occurs. -/
def countOcc (needle : List Char) : List Char → Nat
  | [] => 0
  | b :: bs => (if leadsWith needle (b :: bs) then 1 else 0) + countOcc needle bs

/-! ## Concrete sample data for witnesses and counterexamples -/

/-- A content part carrying a PNG payload (`base64Encode [1, 2, 3] = "AQID"`). -/
def samplePart : Part := { inlineData := some { mimeType := "image/png", data := "AQID" } }

/-- A text-only content part. -/
def textPart : Part := { text := some "some accompanying text" }

/-- A response whose first candidate is safety-blocked for image content and
nevertheless carries an inline image part. -/
def blockedResponse : GenResponse :=
  { candidates := some
      [{ safetyAttributes := some { blockedCategories := some ["IMAGE_SAFETY"] },
         content := some { parts := some [samplePart] } }] }

/-- A response whose first candidate carries a text part and then an inline
image part. -/
def okResponse : GenResponse :=
  { candidates := some [{ content := some { parts := some [textPart, samplePart] } }] }

/-- A response whose first candidate carries only a text part. -/
def emptyResponse : GenResponse :=
  { candidates := some [{ content := some { parts := some [textPart] } }] }

/-- A state with valid inputs and no previous outcome. -/
def baseState : ComponentState := { style := "watercolor", word := "fox" }

/-- A state with valid inputs and a leftover diagnostic trace from an earlier
request. -/
def staleState : ComponentState :=
  { style := "watercolor", word := "fox",
    debugInfo := ["stale entry from a previous request"] }

/-- A state with valid inputs that still holds a previously generated image. -/
def retainedImageState : ComponentState :=
  { style := "watercolor", word := "fox", image := some samplePart }

/-- A state whose word is whitespace-only (truthy in JavaScript). -/
def whitespaceState : ComponentState := { style := "watercolor", word := " " }

/-- A stored JPEG payload of the bytes of `"abc"` (`base64Encode [97, 98, 99]
= "YWJj"`). -/
def jpegPart : Part := { inlineData := some { mimeType := "image/jpeg", data := "YWJj" } }

/-- A state holding the JPEG payload under the word `"cat"`. -/
def catState : ComponentState := { style := "watercolor", word := "cat", image := some jpegPart }

/-- A state holding a payload whose data is not valid base64. -/
def malformedState : ComponentState :=
  { style := "watercolor", word := "cat",
    image := some { inlineData := some { mimeType := "image/png", data := "!!!!" } } }

/-- A state holding a valid payload but an empty word. -/
def emptyWordState : ComponentState := { word := "", image := some jpegPart }

/-! ## Round-trip correctness of the base64 codec -/

/-- Decoding the character that encodes a six-bit value recovers the value. -/
theorem charToSixtet_sixtetToChar :
    ∀ n : Nat, n < 64 → charToSixtet (sixtetToChar n) = some n := by decide

/-- No alphabet character is the padding character. -/
theorem sixtetToChar_ne_pad :
    ∀ n : Nat, n < 64 → sixtetToChar n ≠ '=' := by decide

/-- Decoding inverts encoding on byte lists. -/
theorem decodeChunks_encodeChunks :
    ∀ bs : List Nat, (∀ b ∈ bs, b < 256) → decodeChunks (encodeChunks bs) = some bs
  | [], _ => rfl
  | [b1], h => by
    have hb1 : b1 < 256 := h b1 (by simp)
    have h1 := charToSixtet_sixtetToChar (b1 / 4) (by omega)
    have h2 := charToSixtet_sixtetToChar (b1 % 4 * 16) (by omega)
    simp only [encodeChunks, decodeChunks, h1, h2, if_pos, and_self]
    simp only [Option.some.injEq, List.cons.injEq, and_true]
    omega
  | [b1, b2], h => by
    have hb1 : b1 < 256 := h b1 (by simp)
    have hb2 : b2 < 256 := h b2 (by simp)
    have h1 := charToSixtet_sixtetToChar (b1 / 4) (by omega)
    have h2 := charToSixtet_sixtetToChar (b1 % 4 * 16 + b2 / 16) (by omega)
    have h3 := charToSixtet_sixtetToChar (b2 % 16 * 4) (by omega)
    have hne3 := sixtetToChar_ne_pad (b2 % 16 * 4) (by omega)
    simp only [encodeChunks, decodeChunks, h1, h2, h3, hne3, if_false, if_pos]
    simp [hne3]
    omega
  | b1 :: b2 :: b3 :: rest, h => by
    have hb1 : b1 < 256 := h b1 (by simp)
    have hb2 : b2 < 256 := h b2 (by simp)
    have hb3 : b3 < 256 := h b3 (by simp)
    have h1 := charToSixtet_sixtetToChar (b1 / 4) (by omega)
    have h2 := charToSixtet_sixtetToChar (b1 % 4 * 16 + b2 / 16) (by omega)
    have h3 := charToSixtet_sixtetToChar (b2 % 16 * 4 + b3 / 64) (by omega)
    have h4 := charToSixtet_sixtetToChar (b3 % 64) (by omega)
    have hne3 := sixtetToChar_ne_pad (b2 % 16 * 4 + b3 / 64) (by omega)
    have hne4 := sixtetToChar_ne_pad (b3 % 64) (by omega)
    have ih := decodeChunks_encodeChunks rest
      (fun b hb => h b (by simp at hb ⊢; tauto))
    simp only [encodeChunks, decodeChunks, h1, h2, h3, h4, ih]
    simp [hne3, hne4]
    omega

/-- Decoding inverts encoding on strings of bytes. -/
theorem base64Decode_base64Encode (bs : List Nat) (h : ∀ b ∈ bs, b < 256) :
    base64Decode (base64Encode bs) = some bs :=
  decodeChunks_encodeChunks bs h

/-! ## Claim theorems -/

/-- C1: a response whose first candidate declares a blocked image-safety
category is classified `Blocked` — never `Succeeded`, never generic `Failed` —
and the safety check precedes the inline-data search: the stored image is
untouched even when the response carries inline data, and the error slot
holds the distinct safety message. -/
theorem c1_safety_block_precedence
    (s : ComponentState) (key : String) (r : GenResponse)
    (hw : s.word ≠ "") (hs : s.style ≠ "") (hk : key ≠ "")
    (hb : isSafetyBlocked r = true) :
    classifyResponse r = GenerationOutcome.Blocked ∧
    (generateImage s key (CallResult.ok r)).error = some blockedErrorMsg ∧
    (generateImage s key (CallResult.ok r)).image = s.image := by
  refine ⟨?_, ?_, ?_⟩ <;>
    simp [classifyResponse, generateImage, dispatchCall, processResponse,
          resetForRequest, hb, hw, hs, hk]

/-- Witness for C1 at a blocked response that also carries an inline image
part: the classification is `Blocked` and the part is not extracted. -/
theorem c1_safety_block_precedence_witness :
    (classifyResponse blockedResponse = GenerationOutcome.Blocked ∧
     (generateImage baseState "key" (CallResult.ok blockedResponse)).error =
       some blockedErrorMsg ∧
     (generateImage baseState "key" (CallResult.ok blockedResponse)).image =
       baseState.image) ∧
    findImagePart blockedResponse = some samplePart := by
  refine ⟨c1_safety_block_precedence baseState "key" blockedResponse
    (by decide) (by decide) (by decide) (by decide), by decide⟩

/-- C2: a response that is not safety-blocked and whose first candidate's
parts include one carrying inline data is classified `Succeeded` with that
part stored verbatim, and a payload the service base64-encoded decodes back
to exactly the encoded bytes. -/
theorem c2_inline_data_succeeds_verbatim
    (s : ComponentState) (key : String) (r : GenResponse) (p : Part) (d : InlineData)
    (hw : s.word ≠ "") (hs : s.style ≠ "") (hk : key ≠ "")
    (hb : isSafetyBlocked r = false) (hp : findImagePart r = some p)
    (hd : p.inlineData = some d) :
    classifyResponse r = GenerationOutcome.Succeeded p ∧
    (generateImage s key (CallResult.ok r)).image = some p ∧
    ((generateImage s key (CallResult.ok r)).image.bind (fun q => q.inlineData)) = some d ∧
    (generateImage s key (CallResult.ok r)).error = none ∧
    (∀ bs : List Nat, (∀ b ∈ bs, b < 256) → d.data = base64Encode bs →
      base64Decode d.data = some bs) := by
  refine ⟨?_, ?_, ?_, ?_, ?_⟩
  · simp [classifyResponse, hb, hp]
  · simp [generateImage, dispatchCall, processResponse, resetForRequest,
          hb, hp, hw, hs, hk]
  · simp [generateImage, dispatchCall, processResponse, resetForRequest,
          hb, hp, hw, hs, hk, hd]
  · simp [generateImage, dispatchCall, processResponse, resetForRequest,
          hb, hp, hw, hs, hk]
  · intro bs hbs hdata
    rw [hdata]
    exact base64Decode_base64Encode bs hbs

/-- Witness for C2 at a response carrying `inlineData = ("image/png", "AQID")`
after a text part: `Succeeded` with the verbatim payload, whose data decodes
back to the bytes `[1, 2, 3]` the service encoded. -/
theorem c2_inline_data_succeeds_verbatim_witness :
    classifyResponse okResponse = GenerationOutcome.Succeeded samplePart ∧
    (generateImage baseState "key" (CallResult.ok okResponse)).image = some samplePart ∧
    ((generateImage baseState "key" (CallResult.ok okResponse)).image.bind
      (fun q => q.inlineData)) = some { mimeType := "image/png", data := "AQID" } ∧
    (generateImage baseState "key" (CallResult.ok okResponse)).error = none ∧
    base64Decode "AQID" = some [1, 2, 3] := by
  have h := c2_inline_data_succeeds_verbatim baseState "key" okResponse samplePart
    { mimeType := "image/png", data := "AQID" }
    (by decide) (by decide) (by decide) (by decide) (by decide) rfl
  exact ⟨h.1, h.2.1, h.2.2.1, h.2.2.2.1, h.2.2.2.2 [1, 2, 3] (by decide) (by decide)⟩

/-- C3 counterexample: on a response with no inline data the handler does set
an error, but its message is the source's literal, not "no image data
returned". -/
theorem c3_failed_message_counterexample :
    (generateImage baseState "key" (CallResult.ok emptyResponse)).error =
      some noImageErrorMsg ∧
    (generateImage baseState "key" (CallResult.ok emptyResponse)).error ≠
      some "no image data returned" := by decide

/-- C3 (amended): a response that is not safety-blocked and has no part
carrying inline data yields `Failed` with the message "Failed to generate an
image. The API did not return image data.", and the diagnostic trace's last
entry is the serialized raw response. -/
theorem c3_no_image_failed_with_serialized_trace
    (s : ComponentState) (key : String) (r : GenResponse)
    (hw : s.word ≠ "") (hs : s.style ≠ "") (hk : key ≠ "")
    (hb : isSafetyBlocked r = false) (hp : findImagePart r = none) :
    classifyResponse r = GenerationOutcome.Failed noImageErrorMsg ∧
    (generateImage s key (CallResult.ok r)).error = some noImageErrorMsg ∧
    (generateImage s key (CallResult.ok r)).debugInfo.getLast? =
      some ("API Response: " ++ serializeResponse r) := by
  refine ⟨?_, ?_, ?_⟩ <;>
    simp [classifyResponse, generateImage, dispatchCall, processResponse,
          resetForRequest, hb, hp, hw, hs, hk]

/-- Witness for C3's amended theorem at a concrete text-only response. -/
theorem c3_no_image_failed_with_serialized_trace_witness :
    classifyResponse emptyResponse = GenerationOutcome.Failed noImageErrorMsg ∧
    (generateImage baseState "key" (CallResult.ok emptyResponse)).error =
      some noImageErrorMsg ∧
    (generateImage baseState "key" (CallResult.ok emptyResponse)).debugInfo.getLast? =
      some ("API Response: " ++ serializeResponse emptyResponse) :=
  c3_no_image_failed_with_serialized_trace baseState "key" emptyResponse
    (by decide) (by decide) (by decide) (by decide) (by decide)

/-- C4 (code bug, evaluated at the failing input): when the external call
throws, the error message is built from the exception's description with the
"Unknown error" fallback, but the error line is appended to the stale trace
captured before the request's reset — the leftover entry from the previous
request survives in the final trace instead of the freshly reset trace. -/
theorem c4_catch_appends_to_stale_trace :
    (generateImage staleState "key" (CallResult.err (some "boom"))).error =
      some "Failed to generate image: boom" ∧
    (generateImage staleState "key" (CallResult.err (some "boom"))).debugInfo =
      ["stale entry from a previous request", "Error: boom"] ∧
    (generateImage staleState "key" (CallResult.err none)).error =
      some "Failed to generate image: Unknown error" ∧
    (generateImage staleState "key" (CallResult.err none)).debugInfo =
      ["stale entry from a previous request", "Error: Unknown error"] := by decide

/-- C5 counterexample: a whitespace-only word is truthy in JavaScript, so it
passes validation and the handler proceeds to the external call — on a
successful call it stores an image and reports no failure. -/
theorem c5_whitespace_passes_validation :
    (generateImage whitespaceState "key" (CallResult.ok okResponse)).error = none ∧
    (generateImage whitespaceState "key" (CallResult.ok okResponse)).image =
      some samplePart := by decide

/-- C5 (amended): an empty (untrimmed) word or style, or an unconfigured
(empty) API key, yields the identifying validation message immediately, and
the result does not depend on the external call — none is issued. -/
theorem c5_validation_fails_fast
    (s : ComponentState) (key : String) (call call2 : CallResult) :
    (s.word = "" ∨ s.style = "" →
      generateImage s key call = { s with error := some missingFieldsMsg }) ∧
    (s.word ≠ "" → s.style ≠ "" → key = "" →
      generateImage s key call = { s with error := some missingKeyMsg }) ∧
    (s.word = "" ∨ s.style = "" ∨ key = "" →
      generateImage s key call = generateImage s key call2) := by
  refine ⟨fun h => ?_, fun hw hs hk => ?_, fun h => ?_⟩
  · simp [generateImage, h]
  · simp [generateImage, hw, hs, hk]
  · rcases h with h | h | h
    · simp [generateImage, h]
    · simp [generateImage, h]
    · by_cases hw : s.word = ""
      · simp [generateImage, hw]
      · by_cases hs : s.style = ""
        · simp [generateImage, hs]
        · simp [generateImage, hw, hs, h]

/-- Witness for C5's amended theorem: empty word, empty style, and empty key
each fail fast with the identifying message, independently of the call. -/
theorem c5_validation_fails_fast_witness :
    (generateImage { style := "watercolor", word := "" } "key" (CallResult.ok okResponse) =
      { style := "watercolor", word := "", error := some missingFieldsMsg } ∧
     generateImage baseState "" (CallResult.ok okResponse) =
      { style := "watercolor", word := "fox", error := some missingKeyMsg }) ∧
    generateImage baseState "" (CallResult.ok okResponse) =
      generateImage baseState "" (CallResult.err (some "boom")) := by
  refine ⟨⟨?_, ?_⟩, ?_⟩
  · exact (c5_validation_fails_fast { style := "watercolor", word := "" } "key"
      (CallResult.ok okResponse) (CallResult.ok okResponse)).1 (Or.inl rfl)
  · exact (c5_validation_fails_fast baseState "" (CallResult.ok okResponse)
      (CallResult.ok okResponse)).2.1 (by decide) (by decide) rfl
  · exact (c5_validation_fails_fast baseState "" (CallResult.ok okResponse)
      (CallResult.err (some "boom"))).2.2 (Or.inr (Or.inr rfl))

set_option maxRecDepth 8192 in
/-- C6 counterexample: the source wraps the subject in double quotes, not the
single quotes of the spec's template, and the style literal occurs twice in
the prompt (once per template position), not exactly once. -/
theorem c6_prompt_template_counterexample :
    imagePrompt "fox" "watercolor" ≠ specPromptAsWritten "fox" "watercolor" ∧
    countOcc "watercolor".data (imagePrompt "fox" "watercolor").data ≠ 1 := by decide

set_option maxRecDepth 8192 in
/-- C6 (amended): the prompt is exactly the spec's template with the subject
wrapped in double quotes, both fields embedded verbatim; for subject "fox"
and style "watercolor" the prompt contains "fox" exactly once and
"watercolor" exactly twice — once in each of the two template positions. -/
theorem c6_prompt_template_amended (word style : String) :
    imagePrompt word style = specPromptAmended word style ∧
    countOcc "fox".data (imagePrompt "fox" "watercolor").data = 1 ∧
    countOcc "watercolor".data (imagePrompt "fox" "watercolor").data = 2 :=
  ⟨rfl, by decide, by decide⟩

/-- C7 counterexample: with a valid stored payload but an empty word
(suggested name), `saveImage` triggers no save request at all, so the claim's
"for every suggestedName" fails at the empty name. -/
theorem c7_empty_name_counterexample :
    emptyWordState.image = some jpegPart ∧
    saveImage emptyWordState = (emptyWordState, []) := by decide

/-- C7 (amended): for a present payload with decodable base64 data and a
non-empty suggested name, `saveImage` triggers exactly one save request named
`word.extension` — the extension being the subtype half of the MIME type,
with the literal "png" fallback — whose bytes are the base64 decoding of the
payload data. -/
theorem c7_export_single_save
    (s : ComponentState) (p : Part) (d : InlineData) (bs : List Nat)
    (hw : s.word ≠ "") (hi : s.image = some p) (hd : p.inlineData = some d)
    (hdec : base64Decode d.data = some bs) :
    saveImage s =
      (s, [{ fileName := s.word ++ "." ++ mimeExtension d.mimeType,
             mimeType := d.mimeType, bytes := bs }]) ∧
    mimeExtension "image/jpeg" = "jpeg" ∧
    mimeExtension "image" = "png" ∧
    mimeExtension "image/" = "png" := by
  refine ⟨?_, by decide, by decide, by decide⟩
  simp [saveImage, hi, hw, saveImageTry, hd, atob, hdec]

/-- Witness for C7's amended theorem: the payload
`(mimeType := "image/jpeg", data := base64Encode "abc")` saved under the word
"cat" yields one request named "cat.jpeg" whose bytes are those of "abc". -/
theorem c7_export_single_save_witness :
    saveImage catState =
      (catState, [{ fileName := "cat.jpeg", mimeType := "image/jpeg",
                    bytes := [97, 98, 99] }]) ∧
    String.mk (([97, 98, 99] : List Nat).map (fun b => Char.ofNat b)) = "abc" ∧
    base64Encode [97, 98, 99] = "YWJj" := by
  have h := c7_export_single_save catState jpegPart
    { mimeType := "image/jpeg", data := "YWJj" } [97, 98, 99]
    (by decide) rfl rfl (by decide)
  refine ⟨?_, by decide, by decide⟩
  rw [h.1]
  decide

/-- C8: `saveImage` is a total function (the `atob` exception is modelled in
`Except` and caught): with no stored payload it is a no-op that sets no
error; a decode failure on malformed base64 becomes an error message, not a
raised exception; a stored part without inline data likewise only sets an
error message. -/
theorem c8_export_never_throws (s : ComponentState) :
    (s.image = none → saveImage s = (s, [])) ∧
    (∀ p d, s.image = some p → s.word ≠ "" → p.inlineData = some d →
      base64Decode d.data = none →
      saveImage s =
        ({ s with error := some ("Failed to save image: " ++ atobErrorMsg) }, [])) ∧
    (∀ p, s.image = some p → s.word ≠ "" → p.inlineData = none →
      saveImage s = ({ s with error := some "No valid image data to save" }, [])) := by
  have hmsg : atobErrorMsg ≠ "" := by decide
  refine ⟨fun h => by simp [saveImage, h], fun p d hi hw hd hdec => ?_,
          fun p hi hw hd => ?_⟩
  · simp [saveImage, hi, hw, saveImageTry, hd, atob, hdec, hmsg]
  · simp [saveImage, hi, hw, saveImageTry, hd, pure, Except.pure]

/-- Witness for C8 at a state with no payload and at a state holding
malformed base64 data. -/
theorem c8_export_never_throws_witness :
    saveImage baseState = (baseState, []) ∧
    saveImage malformedState =
      ({ malformedState with error := some ("Failed to save image: " ++ atobErrorMsg) }, []) :=
  ⟨(c8_export_never_throws baseState).1 rfl,
   (c8_export_never_throws malformedState).2.1
     { inlineData := some { mimeType := "image/png", data := "!!!!" } }
     { mimeType := "image/png", data := "!!!!" }
     rfl (by decide) rfl (by decide)⟩

/-- C9 counterexample: the per-request reset (lines 27-29) clears the error
and the trace but not the previously stored image — after a new request whose
response carries no image, the stale payload is still present, so the
previous successful payload is not discarded at the start of a submit. -/
theorem c9_image_not_reset_counterexample :
    (resetForRequest retainedImageState).image = some samplePart ∧
    (generateImage retainedImageState "key" (CallResult.ok emptyResponse)).image =
      some samplePart := by decide

/-- C9 (amended): at the start of each submit that passes validation, the
previous error and the diagnostic trace are reset before the external call is
issued, while the previously stored image payload is retained (it is only
overwritten by a new success); the handler factors through this reset
state. -/
theorem c9_reset_clears_error_and_trace
    (s : ComponentState) (key : String) (call : CallResult)
    (hw : s.word ≠ "") (hs : s.style ≠ "") (hk : key ≠ "") :
    (resetForRequest s).error = none ∧
    (resetForRequest s).debugInfo = [] ∧
    (resetForRequest s).image = s.image ∧
    generateImage s key call = dispatchCall s (resetForRequest s) call :=
  ⟨rfl, rfl, rfl, by simp [generateImage, hw, hs, hk]⟩

/-- Witness for C9's amended theorem at a state retaining an earlier image. -/
theorem c9_reset_clears_error_and_trace_witness :
    (resetForRequest retainedImageState).error = none ∧
    (resetForRequest retainedImageState).debugInfo = [] ∧
    (resetForRequest retainedImageState).image = retainedImageState.image ∧
    generateImage retainedImageState "key" (CallResult.ok okResponse) =
      dispatchCall retainedImageState (resetForRequest retainedImageState)
        (CallResult.ok okResponse) :=
  c9_reset_clears_error_and_trace retainedImageState "key" (CallResult.ok okResponse)
    (by decide) (by decide) (by decide)

/-- C10: with an empty word (the suggested name), `saveImage` returns the
state unchanged and triggers no save request — a silent no-op even when a
valid payload is stored. -/
theorem c10_empty_word_silent_noop (s : ComponentState) (h : s.word = "") :
    saveImage s = (s, []) := by
  cases hi : s.image with
  | none => simp [saveImage, hi]
  | some img => simp [saveImage, hi, h]

/-- Witness for C10 at a state holding a valid payload under an empty word. -/
theorem c10_empty_word_silent_noop_witness :
    saveImage { word := "", style := "watercolor", image := some samplePart } =
      ({ word := "", style := "watercolor", image := some samplePart }, []) :=
  c10_empty_word_silent_noop
    { word := "", style := "watercolor", image := some samplePart } rfl

end GeminiGen
